import Mathlib

/-!
Verification of the `zanata` Ansible module
(`web_infrastructure/zanata.py`): a command-dispatch wrapper around the
Zanata REST API.  The Python source is shallowly embedded below: each
Python function becomes a Lean definition of the same name; the JSON
library (`json.loads` / `json.dumps`) is an external collaborator and is
passed in as a function parameter; the single HTTP round trip performed
by `fetch_url` is modelled by handing the server's response to the
function and collecting the request it would send.
-/

namespace Zanata

/-- Minimal JSON value tree, standing for the Python values produced by
`json.loads` and consumed by `json.dumps`. -/
inductive Json where
  | null : Json
  | bool : Bool → Json
  | num : Int → Json
  | str : String → Json
  | arr : List Json → Json
  | obj : List (String × Json) → Json

/-- A Python value that `rest_call` (and hence an operation handler) can
return: `None`, a string (success message or raw response body), or a
decoded JSON value (`\x7b\x7d` is `json (obj [])`). -/
inductive PyValue where
  | none : PyValue
  | str : String → PyValue
  | json : Json → PyValue

/-- Python truthiness of a JSON value (`bool({}) = False`, etc.). -/
def jsonTruthy : Json → Bool
  | Json.null => false
  | Json.bool b => b
  | Json.num n => n != 0
  | Json.str s => s != ""
  | Json.arr l => !l.isEmpty
  | Json.obj l => !l.isEmpty

/-- Python truthiness of a `PyValue` (`if server_return:`). -/
def pyTruthy : PyValue → Bool
  | PyValue.none => false
  | PyValue.str s => s != ""
  | PyValue.json j => jsonTruthy j

/-- Python truthiness of an optional string: `None` and `''` are falsy
(`if not module.params[param]:`). -/
def truthy : Option String → Bool
  | Option.none => false
  | Option.some s => s ≠ ""

/-- The module's parameter mapping `module.params`: each named parameter
is either absent (`None`) or a string. -/
def Params := String → Option String

/-- Build a `Params` mapping from an association list. -/
def paramsOf (l : List (String × String)) : Params := fun k => l.lookup k

/-- Read a parameter that the code uses as a plain string
(`params['project_id']` inside string concatenation); validation
guarantees the parameter is present at every such use site. -/
def pget (p : Params) (k : String) : String := (p k).getD ""

/-- Read a parameter into a JSON body slot: a missing parameter becomes
JSON `null`, as Python's `None` would. -/
def pjson (p : Params) (k : String) : Json :=
  match p k with
  | Option.none => Json.null
  | Option.some s => Json.str s

/-- The HTTP response handed back by `fetch_url`: the status code, the
`info['msg']` message, and the raw body text (`response.read()`). -/
structure Response where
  status : Int
  msg : String
  body : String
deriving Repr, DecidableEq

/-- The single HTTP request that `rest_call` hands to `fetch_url`. -/
structure Request where
  url : String
  method : String
  headers : List (String × String)
  data : Option String
deriving Repr, DecidableEq

/-- Python dict update for one key on an insertion-ordered association
list: replace the value if the key exists, else append the pair. -/
def setHeader (hs : List (String × String)) (k v : String) :
    List (String × String) :=
  if hs.any (fun q => q.1 == k) then
    hs.map (fun q => if q.1 == k then (k, v) else q)
  else hs ++ [(k, v)]

/-- Embedding of `rest_call(url, user, token, data, method, op)` from
`zanata.py`.  `loads` and `dumps` stand for the external JSON library;
`resp` is the server's response to the one `fetch_url` call.  The result
pairs the request that `fetch_url` receives with either the `fail_json`
message (`Except.error`) or the returned Python value.  (Both call sites
that pass a body pass a non-empty object literal, so the serialization
guard `if data:` is modelled as applying `dumps` to a supplied body.) -/
def rest_call (loads : String → Json) (dumps : Json → String)
    (url : String) (user token : Option String) (data : Option Json)
    (method : String) (op : Option String) (resp : Response) :
    Request × Except String PyValue :=
  let headers := [("Accept", "application/json"),
                  ("Content-Type", "application/json")]
  let headers :=
    if truthy user && truthy token then
      headers ++ [("X-Auth-User", user.getD ""),
                  ("X-Auth-Token", token.getD "")]
    else headers
  let payload := data.map dumps
  let headers :=
    if op == Option.some "config" then
      setHeader headers "Accept" "application/xml"
    else headers
  let req : Request := ⟨url, method, headers, payload⟩
  let result : Except String PyValue :=
    if ¬(resp.status = 200 ∨ resp.status = 201 ∨ resp.status = 204) then
      Except.error resp.msg
    else if resp.status = 201 ∧ op = Option.some "create" then
      Except.ok (PyValue.str "Creation successful!")
    else if resp.status = 200 ∧ op = Option.some "modify" then
      Except.ok (PyValue.str "Modification successful!")
    else
      let body := resp.body
      if body ≠ "" ∧ op = Option.some "config" then
        Except.ok (PyValue.str body)
      else if body ≠ "" then
        Except.ok (PyValue.json (loads body))
      else
        Except.ok (PyValue.json (Json.obj []))
  (req, result)

/-- Embedding of `create_project(base_url, params, op_modify)`. -/
def create_project (loads : String → Json) (dumps : Json → String)
    (base_url : String) (p : Params) (op_modify : Bool) (resp : Response) :
    Request × Except String PyValue :=
  let body := Json.obj
    [("name", pjson p "project_name"), ("id", pjson p "project_id"),
     ("description", pjson p "description"), ("type", pjson p "type")]
  let zanata_user := p "username"
  let api_key := p "token"
  let url := base_url ++ "/projects/p/" ++ pget p "project_id"
  let operation := if op_modify then "modify" else "create"
  rest_call loads dumps url zanata_user api_key (Option.some body)
    "PUT" (Option.some operation) resp

/-- Embedding of `modify(base_url, params)`: it calls `create_project`
with `op_modify=True` but has no `return` statement, so on success it
returns Python `None` (a `fail_json` inside propagates unchanged). -/
def modify (loads : String → Json) (dumps : Json → String)
    (base_url : String) (p : Params) (resp : Response) :
    Request × Except String PyValue :=
  let r := create_project loads dumps base_url p true resp
  (r.1, r.2.map (fun _ => PyValue.none))

/-- Embedding of `create_version(base_url, params)`. -/
def create_version (loads : String → Json) (dumps : Json → String)
    (base_url : String) (p : Params) (resp : Response) :
    Request × Except String PyValue :=
  let body := Json.obj [("id", pjson p "version")]
  let zanata_user := p "username"
  let api_key := p "token"
  let url := base_url ++ "/project/" ++ pget p "project_id" ++
    "/version/" ++ pget p "version"
  rest_call loads dumps url zanata_user api_key (Option.some body)
    "PUT" (Option.some "create") resp

/-- Embedding of `stats(base_url, params)`. -/
def stats (loads : String → Json) (dumps : Json → String)
    (base_url : String) (p : Params) (resp : Response) :
    Request × Except String PyValue :=
  let url := base_url ++ "/stats/proj/" ++ pget p "project_id" ++
    "/iter/" ++ pget p "version"
  rest_call loads dumps url Option.none Option.none Option.none
    "GET" Option.none resp

/-- Embedding of `detail(base_url, params)`. -/
def detail (loads : String → Json) (dumps : Json → String)
    (base_url : String) (p : Params) (resp : Response) :
    Request × Except String PyValue :=
  let url := base_url ++ "/projects/p/" ++ pget p "project_id"
  rest_call loads dumps url Option.none Option.none Option.none
    "GET" Option.none resp

/-- Embedding of `config(base_url, params)`. -/
def config (loads : String → Json) (dumps : Json → String)
    (base_url : String) (p : Params) (resp : Response) :
    Request × Except String PyValue :=
  let url := base_url ++ "/project/" ++ pget p "project_id" ++
    "/version/" ++ pget p "version" ++ "/config"
  rest_call loads dumps url Option.none Option.none Option.none
    "GET" (Option.some "config") resp

/-- Value stored in the exit dict (`changed` is a bool, `msg` carries the
server return). -/
inductive ExitVal where
  | bool : Bool → ExitVal
  | val : PyValue → ExitVal

/-- Embedding of `prepare_exit_json(command, server_return)`. -/
def prepare_exit_json (command : String) (server_return : PyValue) :
    List (String × ExitVal) :=
  let d : List (String × ExitVal) := []
  let d :=
    if command = "create_project" ∨ command = "create_version" ∨
        command = "modify" then
      d ++ [("changed", ExitVal.bool true)]
    else d
  if pyTruthy server_return then d ++ [("msg", ExitVal.val server_return)]
  else d

/-- Embedding of `PARAMS_REQUIRED`, in source order. -/
def PARAMS_REQUIRED : List (String × List String) :=
  [("create_project",
    ["url", "project_id", "project_name", "username", "token",
     "description", "type"]),
   ("create_version", ["url", "project_id", "version", "username", "token"]),
   ("detail", ["url", "project_id"]),
   ("modify",
    ["url", "project_id", "project_name", "username", "token",
     "description", "type"]),
   ("stats", ["url", "project_id", "version"]),
   ("config", ["url", "project_id", "version"])]

/-- The declared operation enum (`choices` of the `operation` option). -/
def OPERATIONS : List String :=
  ["create_project", "create_version", "detail", "modify", "stats", "config"]

/-- One operation handler, as looked up dynamically by
`getattr(this_module, command)` in `main`. -/
def Handler :=
  (String → Json) → (Json → String) → String → Params → Response →
    Request × Except String PyValue

/-- Embedding of the dynamic handler lookup
`getattr(sys.modules[__name__], command)`: the module-level function of
that name, if any. -/
def getHandler : String → Option Handler
  | "create_project" =>
      Option.some (fun l d b p r => create_project l d b p false r)
  | "create_version" => Option.some create_version
  | "detail" => Option.some detail
  | "modify" => Option.some modify
  | "stats" => Option.some stats
  | "config" => Option.some config
  | _ => Option.none

/-- Python's `url.endswith(suffix)`, on the character list. -/
def ends_with (s suffix : String) : Bool := suffix.data.isSuffixOf s.data

/-- The URL normalization of `main` (lines 300-302): append a trailing
slash when the url does not already end with one. -/
def normalize_url (url : String) : String :=
  if ¬ends_with url "/" then url ++ "/" else url

/-- The base URL built by `main` (line 303): normalized url plus the
fixed API segment `rest`. -/
def base_url_of (url : String) : String := normalize_url url ++ "rest"

/-- The missing-parameter scan of `main` (lines 291-294). -/
def missingParams (required : List String) (p : Params) : List String :=
  required.filter (fun name => ¬truthy (p name))

/-- The `fail_json` message of the required-parameter check (line 297):
`"[ %s ] operation requires: %s" % (command, ", ".join(missing))`. -/
def validationMessage (command : String) (missing : List String) : String :=
  "[ " ++ command ++ " ] operation requires: " ++
    String.intercalate ", " missing

/-- Outcome of one module invocation: `fail_json` with a message, or
`exit_json` with the prepared dict. -/
inductive ModuleResult where
  | failed : String → ModuleResult
  | ok : List (String × ExitVal) → ModuleResult

/-- Embedding of `main()` from the `command = module.params['operation']`
line on: required-parameter validation, URL normalization, dynamic
dispatch, and exit-dict preparation.  The first component lists the HTTP
requests issued during the invocation (empty when validation fails
first). -/
def main (loads : String → Json) (dumps : Json → String) (p : Params)
    (resp : Response) : List Request × ModuleResult :=
  let command := pget p "operation"
  match PARAMS_REQUIRED.lookup command with
  | Option.none => ([], ModuleResult.failed ("KeyError: " ++ command))
  | Option.some required =>
    let missing := missingParams required p
    if missing ≠ [] then
      ([], ModuleResult.failed (validationMessage command missing))
    else
      let base_url := base_url_of (pget p "url")
      match getHandler command with
      | Option.none =>
          ([], ModuleResult.failed ("AttributeError: " ++ command))
      | Option.some handler =>
        match handler loads dumps base_url p resp with
        | (req, Except.error m) => ([req], ModuleResult.failed m)
        | (req, Except.ok v) =>
            ([req], ModuleResult.ok (prepare_exit_json command v))

end Zanata

namespace Zanata

/-- A sample decoder standing in for the external `json.loads`: it is
only consulted on the worked example's body text
`\x7b"total":100\x7d`, which decodes to the object `total = 100`. -/
def sampleLoads : String → Json := fun _ => Json.obj [("total", Json.num 100)]

/-- A sample serializer standing in for the external `json.dumps`. -/
def sampleDumps : Json → String := fun _ => "J"

/-- A full parameter set for the `modify` operation. -/
def sampleModifyParams : Params := paramsOf
  [("operation", "modify"), ("url", "https://x/zanata"),
   ("project_id", "P"), ("project_name", "N"), ("username", "u"),
   ("token", "t"), ("description", "d"), ("type", "file")]

/-- The spec's worked example parameters for the `stats` operation. -/
def sampleStatsParams : Params := paramsOf
  [("operation", "stats"), ("url", "https://x/zanata"),
   ("project_id", "ZNTAPRJID"), ("version", "ZNTAPRJVER")]

/-- A parameter set for `detail` that is missing both of its required
parameters (`url` unset, `project_id` unset). -/
def sampleDetailMissingParams : Params := paramsOf [("operation", "detail")]

end Zanata

namespace Zanata

/-- C1: the claim says that for the modify operation an HTTP 200 response
yields a result with `changed = true` AND `msg = "Modification
successful!"`.  The module's own RETURN documentation promises
`msg = 'Modification successful!'`, and `rest_call` does build that
message for `op == 'modify'` at status 200 — but `modify` has no `return`
statement, so the message is discarded: the module exits with
`changed: true` and no `msg` field at all.  This theorem evaluates the
embedded code at the failing input: `create_project(op_modify=True)`
produces the message, `modify` drops it, and `main` reports only
`changed`. -/
theorem c1_modify_200_drops_success_msg :
    (create_project sampleLoads sampleDumps "b" sampleModifyParams true
        ⟨200, "OK", ""⟩).2 =
      Except.ok (PyValue.str "Modification successful!") ∧
    (modify sampleLoads sampleDumps "b" sampleModifyParams
        ⟨200, "OK", ""⟩).2 = Except.ok PyValue.none ∧
    (main sampleLoads sampleDumps sampleModifyParams ⟨200, "OK", ""⟩).2 =
      ModuleResult.ok [("changed", ExitVal.bool true)] :=
  ⟨rfl, rfl, rfl⟩

/-- C3: the required-parameter set enforced for each operation is exactly
the one stated: `create_project` and `modify` require url, project_id,
project_name, username, token, description, type; `create_version`
requires url, project_id, version, username, token; `detail` requires
url, project_id; `stats` and `config` require url, project_id, version. -/
theorem c3_required_parameter_table :
    PARAMS_REQUIRED.lookup "create_project" =
      Option.some ["url", "project_id", "project_name", "username",
                   "token", "description", "type"] ∧
    PARAMS_REQUIRED.lookup "modify" =
      Option.some ["url", "project_id", "project_name", "username",
                   "token", "description", "type"] ∧
    PARAMS_REQUIRED.lookup "create_version" =
      Option.some ["url", "project_id", "version", "username", "token"] ∧
    PARAMS_REQUIRED.lookup "detail" = Option.some ["url", "project_id"] ∧
    PARAMS_REQUIRED.lookup "stats" =
      Option.some ["url", "project_id", "version"] ∧
    PARAMS_REQUIRED.lookup "config" =
      Option.some ["url", "project_id", "version"] :=
  ⟨rfl, rfl, rfl, rfl, rfl, rfl⟩

/-- C4: for every operation context (any `op` tag, any credentials, any
body) and any decoder, an HTTP status outside `\x7b200, 201, 204\x7d`
makes `rest_call` fail with the server-provided message `info['msg']`
verbatim; the result does not depend on the decoder or the body, so no
decoding of the response body is attempted. -/
theorem c4_non_success_status_fails_with_server_msg
    (loads : String → Json) (dumps : Json → String) (url : String)
    (user token : Option String) (data : Option Json) (method : String)
    (op : Option String) (resp : Response)
    (h : ¬(resp.status = 200 ∨ resp.status = 201 ∨ resp.status = 204)) :
    (rest_call loads dumps url user token data method op resp).2 =
      Except.error resp.msg := by
  unfold rest_call
  simp only [if_pos h]

/-- Witness for C4: a 404 response to a `detail`-style GET fails with the
server's message. -/
theorem c4_witness :
    (rest_call sampleLoads sampleDumps "https://x/zanata/rest/projects/p/P"
        Option.none Option.none Option.none "GET" Option.none
        ⟨404, "HTTP Error 404: Not Found", "ignored"⟩).2 =
      Except.error "HTTP Error 404: Not Found" :=
  c4_non_success_status_fails_with_server_msg sampleLoads sampleDumps
    "https://x/zanata/rest/projects/p/P" Option.none Option.none Option.none
    "GET" Option.none ⟨404, "HTTP Error 404: Not Found", "ignored"⟩
    (by decide)

end Zanata

namespace Zanata

/-- C8: with the `config` operation tag, the request's `Accept` header is
overridden to `application/xml` (for any credentials), and on any
accepted status with a non-empty body the raw body text is returned
unmodified — the result holds for every decoder `loads`, so no JSON
decoding is attempted. -/
theorem c8_config_accept_xml_and_raw_body
    (loads : String → Json) (dumps : Json → String) (url : String)
    (user token : Option String) (data : Option Json) (method : String)
    (resp : Response)
    (hstatus : resp.status = 200 ∨ resp.status = 201 ∨ resp.status = 204)
    (hbody : resp.body ≠ "") :
    ((rest_call loads dumps url user token data method
        (Option.some "config") resp).1.headers.lookup "Accept" =
      Option.some "application/xml") ∧
    (rest_call loads dumps url user token data method
        (Option.some "config") resp).2 =
      Except.ok (PyValue.str resp.body) := by
  unfold rest_call
  constructor
  · by_cases hc : (truthy user && truthy token) = true <;>
      simp [hc, setHeader]
  · rcases hstatus with h | h | h <;> simp [h, hbody]

/-- Witness for C8: a concrete `config` fetch at status 200 with an XML
body carries `Accept: application/xml` and returns the body verbatim. -/
theorem c8_witness :
    ((rest_call sampleLoads sampleDumps
        "https://x/zanata/rest/project/P/version/V/config" Option.none
        Option.none Option.none "GET" (Option.some "config")
        ⟨200, "OK", "<config/>"⟩).1.headers.lookup "Accept" =
      Option.some "application/xml") ∧
    (rest_call sampleLoads sampleDumps
        "https://x/zanata/rest/project/P/version/V/config" Option.none
        Option.none Option.none "GET" (Option.some "config")
        ⟨200, "OK", "<config/>"⟩).2 =
      Except.ok (PyValue.str "<config/>") :=
  c8_config_accept_xml_and_raw_body sampleLoads sampleDumps
    "https://x/zanata/rest/project/P/version/V/config" Option.none
    Option.none Option.none "GET" ⟨200, "OK", "<config/>"⟩
    (by decide) (by decide)

/-- C9: for a read operation (no `op` tag for `detail`/`stats`, or the
`config` tag), a response whose status is in the accepted set but whose
body is empty yields the empty mapping `\x7b\x7d`, not an error. -/
theorem c9_empty_body_yields_empty_mapping
    (loads : String → Json) (dumps : Json → String) (url : String)
    (user token : Option String) (data : Option Json) (method : String)
    (op : Option String) (resp : Response)
    (hop : op = Option.none ∨ op = Option.some "config")
    (hstatus : resp.status = 200 ∨ resp.status = 201 ∨ resp.status = 204)
    (hbody : resp.body = "") :
    (rest_call loads dumps url user token data method op resp).2 =
      Except.ok (PyValue.json (Json.obj [])) := by
  unfold rest_call
  rcases hop with rfl | rfl <;> rcases hstatus with h | h | h <;>
    simp [h, hbody]

/-- Witness for C9: a 204 response with an empty body to a `stats`-style
GET yields the empty mapping. -/
theorem c9_witness :
    (rest_call sampleLoads sampleDumps
        "https://x/zanata/rest/stats/proj/P/iter/V" Option.none Option.none
        Option.none "GET" Option.none ⟨204, "No Content", ""⟩).2 =
      Except.ok (PyValue.json (Json.obj [])) :=
  c9_empty_body_yields_empty_mapping sampleLoads sampleDumps
    "https://x/zanata/rest/stats/proj/P/iter/V" Option.none Option.none
    Option.none "GET" Option.none ⟨204, "No Content", ""⟩
    (Or.inl rfl) (by decide) rfl

end Zanata

namespace Zanata

/-- C5 counterexample: on the spec's own worked example (stats of
project ZNTAPRJID version ZNTAPRJVER, status 200, body
`\x7b"total":100\x7d`) the module's exit dict is
`[msg ↦ \x7btotal: 100\x7d]`: the fetched data is placed under the
`msg` key by `prepare_exit_json`, and no `data` key exists, contradicting
the claimed result `\x7bchanged: false, data: \x7btotal:100\x7d\x7d`. -/
theorem c5_counterexample_no_data_field :
    (main sampleLoads sampleDumps sampleStatsParams
        ⟨200, "OK", "\x7b\"total\":100\x7d"⟩).2 =
      ModuleResult.ok
        [("msg",
          ExitVal.val (PyValue.json (Json.obj [("total", Json.num 100)])))] ∧
    (prepare_exit_json "stats"
        (PyValue.json (Json.obj [("total", Json.num 100)]))).lookup "data" =
      Option.none :=
  ⟨rfl, rfl⟩

/-- C5 amended: for the read operations `detail`, `stats` and `config`,
`prepare_exit_json` never sets the `changed` key (so the module never
marks state as changed), and a truthy fetched value is reported under the
`msg` field, not a `data` field. -/
theorem c5_read_ops_report_data_under_msg (command : String) (v : PyValue)
    (h : command = "detail" ∨ command = "stats" ∨ command = "config") :
    (prepare_exit_json command v).lookup "changed" = Option.none ∧
    (pyTruthy v = true →
      prepare_exit_json command v = [("msg", ExitVal.val v)]) := by
  obtain rfl | rfl | rfl := h <;>
    exact ⟨by by_cases hv : pyTruthy v = true <;> simp [prepare_exit_json, hv],
           fun hv => by simp [prepare_exit_json, hv]⟩

/-- Witness for the amended C5, at the worked stats example. -/
theorem c5_amended_witness :
    (prepare_exit_json "stats"
        (PyValue.json (Json.obj [("total", Json.num 100)]))).lookup
        "changed" = Option.none ∧
    prepare_exit_json "stats" (PyValue.json (Json.obj [("total", Json.num 100)])) =
      [("msg",
        ExitVal.val (PyValue.json (Json.obj [("total", Json.num 100)])))] := by
  have h := c5_read_ops_report_data_under_msg "stats"
    (PyValue.json (Json.obj [("total", Json.num 100)])) (Or.inr (Or.inl rfl))
  exact ⟨h.1, h.2 rfl⟩

/-- The normalization property claimed by the spec, modelled from the
spec's words: the string ends with exactly one path separator. -/
def endsWithExactlyOneSlash (s : String) : Bool :=
  ends_with s "/" && !ends_with s "//"

/-- C6 counterexample: for the base url `https://x/zanata//` the code
leaves the url unchanged (it already ends with a slash), so the
normalized url ends with two separators, not exactly one, and the
request base becomes `https://x/zanata//rest`. -/
theorem c6_counterexample_double_slash :
    normalize_url "https://x/zanata//" = "https://x/zanata//" ∧
    endsWithExactlyOneSlash (normalize_url "https://x/zanata//") = false ∧
    base_url_of "https://x/zanata//" = "https://x/zanata//rest" :=
  ⟨rfl, rfl, rfl⟩

/-- C6 amended: the base URL is normalized to end with at least one path
separator (a separator is appended only when missing), then the fixed
API segment `rest` is appended; in particular, for the stats example
with url `https://x/zanata` the request URL is exactly
`https://x/zanata/rest/stats/proj/ZNTAPRJID/iter/ZNTAPRJVER`. -/
theorem c6_url_normalization (url : String) :
    ends_with (normalize_url url) "/" = true ∧
    base_url_of url = normalize_url url ++ "rest" ∧
    (main sampleLoads sampleDumps sampleStatsParams
        ⟨200, "OK", "B"⟩).1.map Request.url =
      ["https://x/zanata/rest/stats/proj/ZNTAPRJID/iter/ZNTAPRJVER"] := by
  refine ⟨?_, rfl, rfl⟩
  unfold normalize_url
  by_cases h : ends_with url "/" = true
  · simp [h]
  · rw [if_pos h]
    simp [ends_with, List.isSuffixOf_iff_suffix]

/-- C2: for any operation with a required-set entry, if the missing-scan
over that set is non-empty, `main` fails with a message listing exactly
the missing names (all of them, joined in order) and issues no HTTP
request; moreover the listed names are exactly the required names whose
parameter is absent or empty. -/
theorem c2_validation_lists_all_missing_without_http
    (loads : String → Json) (dumps : Json → String) (p : Params)
    (resp : Response) (command : String) (required : List String)
    (hop : pget p "operation" = command)
    (hreq : PARAMS_REQUIRED.lookup command = Option.some required)
    (hmiss : missingParams required p ≠ []) :
    main loads dumps p resp =
      ([], ModuleResult.failed
        (validationMessage command (missingParams required p))) ∧
    (∀ name, name ∈ missingParams required p ↔
      name ∈ required ∧ truthy (p name) = false) := by
  constructor
  · unfold main
    rw [hop]
    dsimp only
    rw [hreq]
    simp [hmiss]
  · intro name
    simp [missingParams, List.mem_filter]

/-- Witness for C2: `detail` with neither `url` nor `project_id` fails
listing both names, with no request issued. -/
theorem c2_witness :
    main sampleLoads sampleDumps sampleDetailMissingParams
        ⟨200, "OK", ""⟩ =
      ([], ModuleResult.failed
        "[ detail ] operation requires: url, project_id") := by
  have h := c2_validation_lists_all_missing_without_http sampleLoads
    sampleDumps sampleDetailMissingParams ⟨200, "OK", ""⟩ "detail"
    ["url", "project_id"] rfl rfl (by decide)
  exact h.1.trans (by rfl)

/-- C7: `create_version` with project_id P, version V, username u and
token t issues exactly one PUT to
`(base)/rest/project/P/version/V` whose payload is the serialized JSON
object `\x7bid: V\x7d`, and a 201 response yields the exit dict
`changed: true, msg: "Creation successful!"`. -/
theorem c7_create_version_put_request_and_result
    (loads : String → Json) (dumps : Json → String)
    (url P V u t : String) (resp : Response)
    (hurl : url ≠ "") (hP : P ≠ "") (hV : V ≠ "") (hu : u ≠ "")
    (ht : t ≠ "") (hstatus : resp.status = 201) :
    main loads dumps
      (paramsOf [("operation", "create_version"), ("url", url),
                 ("project_id", P), ("version", V), ("username", u),
                 ("token", t)]) resp =
      ([{ url := base_url_of url ++ "/project/" ++ P ++ "/version/" ++ V,
          method := "PUT",
          headers := [("Accept", "application/json"),
                      ("Content-Type", "application/json"),
                      ("X-Auth-User", u), ("X-Auth-Token", t)],
          data := Option.some (dumps (Json.obj [("id", Json.str V)])) }],
       ModuleResult.ok
         [("changed", ExitVal.bool true),
          ("msg", ExitVal.val (PyValue.str "Creation successful!"))]) := by
  have hcv : create_version loads dumps (base_url_of url)
      (paramsOf [("operation", "create_version"), ("url", url),
                 ("project_id", P), ("version", V), ("username", u),
                 ("token", t)]) resp =
      ({ url := base_url_of url ++ "/project/" ++ P ++ "/version/" ++ V,
         method := "PUT",
         headers := [("Accept", "application/json"),
                     ("Content-Type", "application/json"),
                     ("X-Auth-User", u), ("X-Auth-Token", t)],
         data := Option.some (dumps (Json.obj [("id", Json.str V)])) },
       Except.ok (PyValue.str "Creation successful!")) := by
    simp [create_version, rest_call, paramsOf, pget, pjson, truthy,
      List.lookup, hstatus, hu, ht]
  have hms : missingParams
      ["url", "project_id", "version", "username", "token"]
      (paramsOf [("operation", "create_version"), ("url", url),
                 ("project_id", P), ("version", V), ("username", u),
                 ("token", t)]) = [] := by
    simp [missingParams, paramsOf, truthy, List.lookup, hurl, hP, hV,
      hu, ht]
  unfold main
  dsimp only
  rw [show pget (paramsOf [("operation", "create_version"), ("url", url),
        ("project_id", P), ("version", V), ("username", u),
        ("token", t)]) "operation" = "create_version" from rfl]
  rw [show List.lookup "create_version" PARAMS_REQUIRED =
        Option.some ["url", "project_id", "version", "username", "token"]
      from rfl]
  dsimp only
  rw [hms]
  rw [show pget (paramsOf [("operation", "create_version"), ("url", url),
        ("project_id", P), ("version", V), ("username", u),
        ("token", t)]) "url" = url from rfl]
  rw [show getHandler "create_version" = Option.some create_version from rfl]
  dsimp only
  rw [hcv]
  simp [prepare_exit_json]
  decide

/-- Witness for C7 at concrete inputs: url `https://x/zanata`, project P,
version V, credentials u/t, response 201. -/
theorem c7_witness :
    main sampleLoads sampleDumps
      (paramsOf [("operation", "create_version"),
                 ("url", "https://x/zanata"), ("project_id", "P"),
                 ("version", "V"), ("username", "u"), ("token", "t")])
      ⟨201, "Created", ""⟩ =
      ([{ url := "https://x/zanata/rest/project/P/version/V",
          method := "PUT",
          headers := [("Accept", "application/json"),
                      ("Content-Type", "application/json"),
                      ("X-Auth-User", "u"), ("X-Auth-Token", "t")],
          data := Option.some "J" }],
       ModuleResult.ok
         [("changed", ExitVal.bool true),
          ("msg", ExitVal.val (PyValue.str "Creation successful!"))]) := by
  have h := c7_create_version_put_request_and_result sampleLoads sampleDumps
    "https://x/zanata" "P" "V" "u" "t" ⟨201, "Created", ""⟩
    (by decide) (by decide) (by decide) (by decide) (by decide) rfl
  exact h.trans (by rfl)

/-- Dispatch shape of `main`: once the operation resolves in both the
required-set table and the handler table, the invocation either fails
validation with no request issued, or issues exactly one request. -/
theorem main_dispatch_shape
    (loads : String → Json) (dumps : Json → String) (p : Params)
    (resp : Response) (c : String) (required : List String) (h : Handler)
    (hop : pget p "operation" = c)
    (hreq : PARAMS_REQUIRED.lookup c = Option.some required)
    (hh : getHandler c = Option.some h) :
    (∃ missing, missing ≠ [] ∧
      main loads dumps p resp =
        ([], ModuleResult.failed (validationMessage c missing))) ∨
    (main loads dumps p resp).1.length = 1 := by
  by_cases hm : missingParams required p = []
  · right
    unfold main
    rw [hop]
    dsimp only
    rw [hreq]
    dsimp only
    rw [hm]
    simp only [ne_eq, not_true_eq_false, if_neg, reduceIte]
    rw [hh]
    rcases hr : h loads dumps (base_url_of (pget p "url")) p resp with ⟨req, e⟩
    cases e <;> simp [hr]
  · left
    refine ⟨missingParams required p, hm, ?_⟩
    unfold main
    rw [hop]
    dsimp only
    rw [hreq]
    simp [hm]

/-- C10: for every valid operation value, both the required-set lookup in
`PARAMS_REQUIRED` and the dynamic handler lookup succeed, so before the
HTTP call the only possible failure is the missing-parameter validation
failure: the invocation either fails validation with no request, or
issues its one request. -/
theorem c10_dispatch_total_over_operations
    (loads : String → Json) (dumps : Json → String) (p : Params)
    (resp : Response) (c : String)
    (hc : c ∈ OPERATIONS) (hop : pget p "operation" = c) :
    ((PARAMS_REQUIRED.lookup c).isSome = true ∧
      (getHandler c).isSome = true) ∧
    ((∃ missing, missing ≠ [] ∧
        main loads dumps p resp =
          ([], ModuleResult.failed (validationMessage c missing))) ∨
      (main loads dumps p resp).1.length = 1) := by
  simp only [OPERATIONS, List.mem_cons, List.not_mem_nil, or_false] at hc
  rcases hc with rfl | rfl | rfl | rfl | rfl | rfl
  · exact ⟨⟨rfl, rfl⟩, main_dispatch_shape loads dumps p resp _ _ _ hop rfl rfl⟩
  · exact ⟨⟨rfl, rfl⟩, main_dispatch_shape loads dumps p resp _ _ _ hop rfl rfl⟩
  · exact ⟨⟨rfl, rfl⟩, main_dispatch_shape loads dumps p resp _ _ _ hop rfl rfl⟩
  · exact ⟨⟨rfl, rfl⟩, main_dispatch_shape loads dumps p resp _ _ _ hop rfl rfl⟩
  · exact ⟨⟨rfl, rfl⟩, main_dispatch_shape loads dumps p resp _ _ _ hop rfl rfl⟩
  · exact ⟨⟨rfl, rfl⟩, main_dispatch_shape loads dumps p resp _ _ _ hop rfl rfl⟩

/-- Witness for C10, at the `detail` operation with its required
parameters missing: both lookups succeed and the invocation fails
validation with no request issued. -/
theorem c10_witness :
    ((PARAMS_REQUIRED.lookup "detail").isSome = true ∧
      (getHandler "detail").isSome = true) ∧
    ((∃ missing, missing ≠ [] ∧
        main sampleLoads sampleDumps sampleDetailMissingParams
            ⟨200, "OK", ""⟩ =
          ([], ModuleResult.failed (validationMessage "detail" missing))) ∨
      (main sampleLoads sampleDumps sampleDetailMissingParams
          ⟨200, "OK", ""⟩).1.length = 1) :=
  c10_dispatch_total_over_operations sampleLoads sampleDumps
    sampleDetailMissingParams ⟨200, "OK", ""⟩ "detail" (by decide) rfl

end Zanata
